import Mathlib

/-!
Verification of the scoring core of the Dawn Patrol morning-activity advisor.

The JavaScript source is shallowly embedded in Lean:

- JS numbers are modelled as exact rationals; the single value
  undefined/NaN (which behave identically in every operation the scoring
  code performs: arithmetic yields NaN, every relational comparison is
  false, both are falsy) is modelled as the `none` of an `Option`.
- A JS timestamp is represented by the pair of its local calendar date
  string and its local hour, which is exactly the information the code
  extracts from it via formatLocalDate(new Date(t)) and getHours().
- The global getTomorrowDate() result is threaded as an explicit
  `tomorrow` argument to every function that reads it.
- Fallible code (accessing a property or an index of undefined throws a
  TypeError in JS) is modelled in the `Except String` monad.
-/

namespace DawnPatrol

/-- Representation of a JS numeric value that may be undefined or NaN:
`none` stands for undefined/NaN, `some q` for a finite number. -/
abbrev JNum := Option ℚ

/-- Math.round on a finite value: nearest integer, halves toward positive
infinity. -/
def jsRound (q : ℚ) : ℤ := ⌊q + 1/2⌋

/-- Math.round lifted to possibly undefined/NaN values (NaN in, NaN out). -/
def jsRoundJ : JNum → Option ℤ
  | none => none
  | some q => some (jsRound q)

/-- Truncation toward zero, the rounding used by the JS remainder operator. -/
def ratTrunc (q : ℚ) : ℤ := if 0 ≤ q then ⌊q⌋ else -⌊-q⌋

/-- JS remainder `a % b` on finite numbers: result takes the sign of the
dividend. -/
def jsFmod (a b : ℚ) : ℚ := a - b * (ratTrunc (a / b) : ℚ)

/-- JS remainder `a % b` on possibly NaN values. -/
def jsFmodJ (a : JNum) (b : ℚ) : JNum :=
  match a with
  | none => none
  | some q => some (jsFmod q b)

/-- Addition of a constant to a possibly NaN value. -/
def jaddC (a : JNum) (b : ℚ) : JNum :=
  match a with
  | none => none
  | some q => some (q + b)

/-- JS remainder on integer values (sign of the dividend), as produced by
`Math.round(x) % 16`. -/
def jsRemInt (a b : ℤ) : ℤ := if 0 ≤ a then a % b else -((-a) % b)

/-- JS comparison `a >= b` where `a` may be undefined/NaN (then false). -/
def jge (a : JNum) (b : ℚ) : Bool :=
  match a with
  | none => false
  | some x => decide (b ≤ x)

/-- JS comparison `a > b` where `a` may be undefined/NaN (then false). -/
def jgt (a : JNum) (b : ℚ) : Bool :=
  match a with
  | none => false
  | some x => decide (b < x)

/-- JS comparison `a <= b` where `a` may be undefined/NaN (then false). -/
def jle (a : JNum) (b : ℚ) : Bool :=
  match a with
  | none => false
  | some x => decide (x ≤ b)

/-- JS comparison `a < b` where `a` may be undefined/NaN (then false). -/
def jlt (a : JNum) (b : ℚ) : Bool :=
  match a with
  | none => false
  | some x => decide (x < b)

/-- JS `x || y` specialised to numeric reads: an undefined or zero `x`
falls through to the default `y`. -/
def orD (x : Option ℚ) (y : ℚ) : ℚ :=
  match x with
  | none => y
  | some q => if q = 0 then y else q

/-- JS truthiness of a possibly absent string (undefined and the empty
string are falsy). -/
def strTruthy : Option String → Bool
  | none => false
  | some s => s ≠ ""

/-- Rendering of a possibly NaN integer value by JS string interpolation. -/
def zToString : Option ℤ → String
  | none => "NaN"
  | some n => toString n

/-- Number.prototype.toFixed(1) for the finite values the source applies
it to. -/
def toFixed1 (q : ℚ) : String :=
  let n := jsRound (q * 10)
  let sign := if n < 0 then "-" else ""
  sign ++ toString (n.natAbs / 10) ++ "." ++ toString (n.natAbs % 10)

/-- CONFIG.morningStartHour. -/
def morningStartHour : ℕ := 6

/-- CONFIG.morningEndHour. -/
def morningEndHour : ℕ := 9

/-- A timestamp as the source observes it: its local calendar date string
(result of formatLocalDate) and its local hour (result of getHours). -/
structure Timestamp where
  dateStr : String
  hour : ℕ
deriving DecidableEq

/-- Loop body of getMorningHourIndex: scan for the first timestamp on the
target date whose hour lies in the closed morning window. -/
def findMorningFrom (targetDate : String) : List Timestamp → ℕ → Option ℕ
  | [], _ => none
  | t :: ts, i =>
      if t.dateStr = targetDate ∧ morningStartHour ≤ t.hour ∧ t.hour ≤ morningEndHour
      then some i
      else findMorningFrom targetDate ts (i + 1)

/-- getMorningHourIndex: the source returns the sentinel -1 when no index
is found, modelled here as `none`. The identical inline loop in
calculateSurfScore is also represented by this function. -/
def getMorningHourIndex (hourlyTimes : List Timestamp) (targetDate : String) : Option ℕ :=
  findMorningFrom targetDate hourlyTimes 0

/-- The sixteen cardinal direction labels of degreesToCardinal. -/
def directions : List String :=
  ["N", "NNE", "NE", "ENE", "E", "ESE", "SE", "SSE",
   "S", "SSW", "SW", "WSW", "W", "WNW", "NW", "NNW"]

/-- degreesToCardinal: `Math.round(degrees / 22.5) % 16` indexes into the
16-label table; a negative index reads past the array and yields the JS
undefined, modelled as `none`. -/
def degreesToCardinal (degrees : ℚ) : Option String :=
  let index := jsRemInt (jsRound (degrees / (45/2))) 16
  if index < 0 then none else directions.get? index.toNat

/-- degreesToCardinal applied to a possibly NaN argument (a NaN argument
gives a NaN index, hence undefined). -/
def degreesToCardinalJ : JNum → Option String
  | none => none
  | some q => degreesToCardinal q

/-- The hourly block of the Open-Meteo general weather payload. Every
array is optional because field presence is not guaranteed by the
provider. -/
structure WeatherHourly where
  time : Option (List Timestamp)
  temperature_2m : Option (List ℚ)
  relative_humidity_2m : Option (List ℚ)
  cloud_cover : Option (List ℚ)
  wind_speed_10m : Option (List ℚ)
  wind_direction_10m : Option (List ℚ)
  weather_code : Option (List ℚ)
deriving DecidableEq

/-- The Open-Meteo general weather payload. -/
structure WeatherData where
  hourly : Option WeatherHourly
deriving DecidableEq

/-- The hourly block of the Open-Meteo marine payload. -/
structure MarineHourly where
  time : Option (List Timestamp)
  wave_height : Option (List ℚ)
  wave_direction : Option (List ℚ)
  wave_period : Option (List ℚ)
  swell_wave_height : Option (List ℚ)
  swell_wave_direction : Option (List ℚ)
  swell_wave_period : Option (List ℚ)
deriving DecidableEq

/-- The Open-Meteo marine payload. -/
structure MarineData where
  hourly : Option MarineHourly
deriving DecidableEq

/-- The sunrise payload; calculatePhotoScore receives it but never reads
it. -/
structure SunriseInfo where
  sunrise : String
deriving DecidableEq

/-- Result object of calculateSurfScore. Fields present only on the main
branch are optional; the no-data branches carry only score and details. -/
structure SurfResult where
  score : ℚ
  waveHeight : Option ℚ
  details : String
  period : Option ℚ
  direction : Option ℚ
  heightScore : Option ℚ
  periodScore : Option ℚ
  windScore : Option ℚ
deriving DecidableEq

/-- Result object of calculatePhotoScore. -/
structure PhotoResult where
  score : ℚ
  details : Option String
  verdict : String
  cloudCover : JNum
  humidity : Option ℚ
deriving DecidableEq

/-- Result object of calculateCycleScore. The no-data branch sets
direction to null and omits the other fields, both modelled as `none`. -/
structure CycleResult where
  score : ℚ
  details : Option String
  windSpeed : Option ℤ
  windDirection : JNum
  windCardinal : Option String
  temp : Option ℤ
  direction : Option String
  directionText : Option String
deriving DecidableEq

/-- Wind sub-score block of calculateSurfScore: reads wind speed and
direction at the weather series own morning index; 5 when weather data or
the morning hour is unavailable; a TypeError when a present hourly block
lacks its time array or (with a found index) its wind arrays. -/
def surfWindScore (tomorrow : String) (weatherData : Option WeatherData) : Except String ℚ :=
  match weatherData with
  | none => Except.ok 5
  | some wd =>
    match wd.hourly with
    | none => Except.ok 5
    | some wh =>
      match wh.time with
      | none => Except.error "TypeError: hourly time is undefined"
      | some wtimes =>
        match getMorningHourIndex wtimes tomorrow with
        | none => Except.ok 5
        | some wxIndex =>
          match wh.wind_speed_10m, wh.wind_direction_10m with
          | some ws, some wdir =>
            let windSpeed := orD (ws.get? wxIndex) 0
            let windDir := orD (wdir.get? wxIndex) 0
            let isOffshore := 250 ≤ windDir ∧ windDir ≤ 320
            let isLightWind := windSpeed < 8
            Except.ok
              (if isOffshore ∧ isLightWind then 10
               else if isOffshore then 8
               else if isLightWind then 7
               else if windSpeed < 15 then 4
               else 2)
          | _, _ => Except.error "TypeError: wind array is undefined"

/-- calculateSurfScore. Note that the source computes the swell-preferred
height into the variable swellHeight and then never reads it: the height
sub-score and the details string both use the raw waveHeight. -/
def calculateSurfScore (tomorrow : String) (marineData : Option MarineData)
    (weatherData : Option WeatherData) : Except String SurfResult :=
  match marineData with
  | none => Except.ok ⟨0, none, "No data available", none, none, none, none, none⟩
  | some md =>
  match md.hourly with
  | none => Except.ok ⟨0, none, "No data available", none, none, none, none, none⟩
  | some mh =>
  match mh.time with
  | none => Except.error "TypeError: marine hourly time is undefined"
  | some times =>
    let waveHeights := mh.wave_height.getD []
    let wavePeriods := mh.wave_period.getD []
    let waveDirections := mh.wave_direction.getD []
    let swellHeights := mh.swell_wave_height.getD []
    let swellPeriods := mh.swell_wave_period.getD []
    let swellDirections := mh.swell_wave_direction.getD []
    match getMorningHourIndex times tomorrow with
    | none => Except.ok ⟨0, none, "No forecast data", none, none, none, none, none⟩
    | some morningIndex =>
      let waveHeight := orD (waveHeights.get? morningIndex) 0
      let swellHeight := orD (swellHeights.get? morningIndex) waveHeight
      let period := orD (swellPeriods.get? morningIndex) (orD (wavePeriods.get? morningIndex) 0)
      let direction := orD (swellDirections.get? morningIndex) (orD (waveDirections.get? morningIndex) 0)
      let heightScore : ℚ :=
        if waveHeight < 1 then 1
        else if waveHeight < 2 then 3
        else if waveHeight < 3 then 5
        else if waveHeight < 4 then 7
        else if waveHeight < 5 then 9
        else if waveHeight < 6 then 10
        else if waveHeight < 8 then 8
        else 6
      let periodScore : ℚ :=
        if period < 5 then 2
        else if period < 7 then 4
        else if period < 9 then 6
        else if period < 11 then 8
        else 10
      let _ := swellHeight
      (surfWindScore tomorrow weatherData).map (fun windScore =>
        let finalScore := jsRound (heightScore * 0.4 + periodScore * 0.3 + windScore * 0.3)
        let heightStr := toFixed1 waveHeight ++ "ft"
        let periodStr := if 0 < period then toString (jsRound period) ++ "s" else ""
        let dirStr := (degreesToCardinal direction).getD "undefined"
        { score := min 10 (max 1 (finalScore : ℚ)),
          waveHeight := some waveHeight,
          details := heightStr ++ " @ " ++ periodStr ++ " " ++ dirStr,
          period := some period,
          direction := some direction,
          heightScore := some heightScore,
          periodScore := some periodScore,
          windScore := some windScore })

/-- Verdict and score of the cloud-cover if-chain in calculatePhotoScore.
An undefined cloud cover fails every comparison and lands in the final
else branch, exactly as in the source. -/
def photoVerdictScore (cloudCover : JNum) : ℚ × String :=
  match cloudCover with
  | none => (2, "Overcast - unlikely to see color")
  | some c =>
    if 20 ≤ c ∧ c ≤ 60 then
      (8 + (jsRound ((40 - |c - 40|) / 20) : ℚ), "Good cloud cover for colorful sunrise")
    else if 10 ≤ c ∧ c < 20 then (6, "Light clouds - some color potential")
    else if 60 < c ∧ c ≤ 80 then (5, "Heavy clouds - may get some color")
    else if c < 10 then (4, "Clear sky - pretty but no cloud color")
    else (2, "Overcast - unlikely to see color")

/-- calculatePhotoScore. The sunriseData parameter is accepted and never
read, as in the source. -/
def calculatePhotoScore (tomorrow : String) (weather : WeatherData)
    (sunriseData : Option SunriseInfo) : Except String PhotoResult :=
  let _ := sunriseData
  match weather.hourly with
  | none => Except.error "TypeError: hourly is undefined"
  | some wh =>
  match wh.time with
  | none => Except.error "TypeError: hourly time is undefined"
  | some times =>
  match getMorningHourIndex times tomorrow with
  | none => Except.ok ⟨0, some "No data", "No data available", some 0, none⟩
  | some hourIndex =>
  match wh.cloud_cover with
  | none => Except.error "TypeError: cloud_cover is undefined"
  | some cc =>
    let cloudCover : JNum := cc.get? hourIndex
    let humidity := orD (wh.relative_humidity_2m.bind (fun l => l.get? hourIndex)) 50
    let vs := photoVerdictScore cloudCover
    Except.ok ⟨vs.1, none, vs.2, cloudCover, some humidity⟩

/-- Wind sub-score chain of calculateCycleScore (an undefined wind speed
fails every comparison and lands in the final else branch). -/
def cycleWindScore (windSpeed : JNum) : ℚ :=
  match windSpeed with
  | none => 1
  | some v =>
    if v < 8 then 10
    else if v < 12 then 8
    else if v ≤ 15 then 5
    else 1

/-- Weather-code sub-score chain of calculateCycleScore. -/
def cycleWeatherScore (weatherCode : JNum) : ℚ :=
  match weatherCode with
  | none => 0
  | some v =>
    if v ≤ 3 then 10
    else if v ≤ 49 then 7
    else if v ≤ 59 then 3
    else 0

/-- Temperature sub-score chain of calculateCycleScore. -/
def cycleTempScore (temp : JNum) : ℚ :=
  match temp with
  | none => 3
  | some v =>
    if 55 ≤ v ∧ v ≤ 75 then 10
    else if (45 ≤ v ∧ v < 55) ∨ (75 < v ∧ v ≤ 85) then 7
    else 3

/-- Direction recommendation of calculateCycleScore from the normalized
wind direction (a NaN direction fails both range tests and is treated as
cross-shore, as in the source). -/
def cycleDirection (normalizedDir : JNum) : String × String :=
  if jge normalizedDir 315 || jle normalizedDir 45 then
    ("ac", "Go to Atlantic City first, wind at your back coming home")
  else if jge normalizedDir 135 && jle normalizedDir 225 then
    ("longport", "Go to Longport first, wind at your back coming home")
  else
    ("either", "Wind is cross-shore, either direction works")

/-- calculateCycleScore. -/
def calculateCycleScore (tomorrow : String) (weather : WeatherData) :
    Except String CycleResult :=
  match weather.hourly with
  | none => Except.error "TypeError: hourly is undefined"
  | some wh =>
  match wh.time with
  | none => Except.error "TypeError: hourly time is undefined"
  | some times =>
  match getMorningHourIndex times tomorrow with
  | none => Except.ok ⟨0, some "No data", none, none, none, none, none, none⟩
  | some hourIndex =>
  match wh.wind_speed_10m, wh.wind_direction_10m, wh.temperature_2m, wh.weather_code with
  | some wsl, some wdl, some tl, some wcl =>
    let windSpeed : JNum := wsl.get? hourIndex
    let windDirection : JNum := wdl.get? hourIndex
    let temp : JNum := tl.get? hourIndex
    let weatherCode : JNum := wcl.get? hourIndex
    let windScore := cycleWindScore windSpeed
    let weatherScore := cycleWeatherScore weatherCode
    let tempScore := cycleTempScore temp
    let finalScore := jsRound (windScore * 0.4 + weatherScore * 0.3 + tempScore * 0.3)
    let normalizedDir := jsFmodJ (jaddC (jsFmodJ windDirection 360) 360) 360
    let dir := cycleDirection normalizedDir
    Except.ok
      { score := min 10 (max 1 (finalScore : ℚ)),
        details := none,
        windSpeed := jsRoundJ windSpeed,
        windDirection := normalizedDir,
        windCardinal := degreesToCardinalJ normalizedDir,
        temp := jsRoundJ temp,
        direction := some dir.1,
        directionText := some dir.2 }
  | _, _, _, _ => Except.error "TypeError: hourly data array is undefined"

/-- One entry of the activities array built by getRecommendation. -/
structure Activity where
  name : String
  score : ℚ
  label : String
deriving DecidableEq

/-- The scores record handed to getRecommendation. -/
structure Scores where
  surf : ℚ
  photo : ℚ
  cycle : ℚ
deriving DecidableEq

/-- Output object of getRecommendation. -/
structure Recommendation where
  activity : String
  detail : String
  icon : String
deriving DecidableEq

/-- Stable descending insertion of one element: the element moves ahead of
an earlier one exactly when its score is strictly larger, which is the
order induced by the comparator (a, b) => b.score - a.score. -/
def insertDesc (x : Activity) : List Activity → List Activity
  | [] => [x]
  | y :: ys => if y.score < x.score then x :: y :: ys else y :: insertDesc x ys

/-- Array.prototype.sort with the comparator (a, b) => b.score - a.score.
The comparator is consistent, and sort is required to be stable, so the
result is the unique stable descending reordering, realised here as a
stable insertion sort. -/
def jsSortDesc (l : List Activity) : List Activity :=
  l.foldl (fun acc x => insertDesc x acc) []

/-- The sorted activities list built inside getRecommendation. -/
def rankedActivities (surf photo cycle : ℚ) : List Activity :=
  jsSortDesc
    [⟨"surf", surf, "GO SURF"⟩,
     ⟨"photo", photo, "SUNRISE PHOTOS"⟩,
     ⟨"cycle", cycle, "GO CYCLING"⟩]

/-- The icons lookup object of getRecommendation (only the three activity
names ever reach it). -/
def iconsLookup (name : String) : String :=
  if name = "surf" then "&#127940;"
  else if name = "photo" then "&#128247;"
  else if name = "cycle" then "&#128690;"
  else ""

/-- getRecommendation. The sorted list of three activities is never empty,
so the headD default is unreachable. -/
def getRecommendation (scores : Scores) (surfScoreData : Option SurfResult)
    (cycleData : CycleResult) : Recommendation :=
  let best := (rankedActivities scores.surf scores.photo scores.cycle).headD ⟨"", 0, ""⟩
  let detail :=
    if best.name = "surf" ∧ surfScoreData.isSome then
      (surfScoreData.map (fun s => s.details)).getD ""
    else if best.name = "cycle" ∧ strTruthy cycleData.directionText then
      cycleData.directionText.getD ""
    else if best.name = "photo" then "Get up early and find your spot"
    else ""
  if best.score < 4 then
    ⟨"SLEEP IN", "Nothing looks great tomorrow", "&#128564;"⟩
  else
    ⟨best.label, detail, iconsLookup best.name⟩

/-- Position of an activity name in the input order surf, photo, cycle;
used to state the stability of the ranking. -/
def inputPos (name : String) : ℕ :=
  if name = "surf" then 0 else if name = "photo" then 1 else 2

/-- Modelled from the spec: the fixed icon attached to each of the four
possible output activity labels. -/
def iconForLabel (label : String) : String :=
  if label = "GO SURF" then "&#127940;"
  else if label = "SUNRISE PHOTOS" then "&#128247;"
  else if label = "GO CYCLING" then "&#128690;"
  else "&#128564;"

/-- One NOAA tide prediction entry: a datetime string of the form
YYYY-MM-DD HH:MM, a height string, and a type string. -/
structure TidePred where
  t : String
  v : String
  type : String
deriving DecidableEq

/-- Characterwise splitting on a one-character separator, the behaviour
of JS String.prototype.split with the one-character separators the tide
formatter uses. -/
def splitCharList (sep : Char) : List Char → List (List Char)
  | [] => [[]]
  | c :: cs =>
      let r := splitCharList sep cs
      if c = sep then [] :: r
      else
        match r with
        | [] => [[c]]
        | g :: gs => (c :: g) :: gs

/-- JS s.split(sep) for a one-character separator. -/
def jsSplit (s : String) (sep : Char) : List String :=
  (splitCharList sep s.toList).map String.mk

/-- The ECMAScript StrWhiteSpaceChar set skipped by parseInt: WhiteSpace
(tab, vertical tab, form feed, space, no-break space, BOM and the Zs
space separators) together with the LineTerminator characters. -/
def jsStrWhiteSpace (c : Char) : Bool :=
  c == ' ' || c == '\t' || c == '\n' || c == '\r' || c == '\u000B' || c == '\u000C'
    || c == '\u00A0' || c == '\uFEFF' || c == '\u1680'
    || (decide ('\u2000' ≤ c) && decide (c ≤ '\u200A'))
    || c == '\u2028' || c == '\u2029' || c == '\u202F' || c == '\u205F' || c == '\u3000'

/-- The longest leading run of decimal digits, as a number; NaN when it
is empty. -/
def jsParseDigits (cs : List Char) : Option ℕ :=
  match cs.takeWhile Char.isDigit with
  | [] => none
  | ds => some (ds.foldl (fun a c => a * 10 + (c.toNat - 48)) 0)

/-- parseInt(s, 10): skip leading whitespace, read an optional sign, then
the longest run of decimal digits; NaN when no digit follows. -/
def jsParseInt10 (s : String) : Option ℤ :=
  match s.toList.dropWhile jsStrWhiteSpace with
  | '-' :: rest => (jsParseDigits rest).map (fun n => -(n : ℤ))
  | '+' :: rest => (jsParseDigits rest).map (fun n => (n : ℤ))
  | cs => (jsParseDigits cs).map (fun n => (n : ℤ))

/-- JS comparison `a >= b` on a possibly NaN integer. -/
def jgeZ (a : Option ℤ) (b : ℤ) : Bool :=
  match a with
  | none => false
  | some x => decide (b ≤ x)

/-- JS comparison `a <= b` on a possibly NaN integer. -/
def jleZ (a : Option ℤ) (b : ℤ) : Bool :=
  match a with
  | none => false
  | some x => decide (x ≤ b)

/-- JS comparison `a > b` on a possibly NaN integer. -/
def jgtZ (a : Option ℤ) (b : ℤ) : Bool :=
  match a with
  | none => false
  | some x => decide (b < x)

/-- Loop body of getNoaaTideInfo: the pushed (type, time) pair for one
prediction, or nothing when the entry is skipped. The destructuring
const [dateStr, timeStr] never throws, but when the date part equals the
target date and the datetime string has no time part, the source then
calls split on the undefined timeStr and throws a TypeError, modelled as
the error case. A timeStr without a colon leaves the minutes undefined,
which interpolates as the string "undefined". -/
def noaaTideEntry (tomorrow : String) (pred : TidePred) :
    Except String (Option (String × String)) :=
  if pred.type ≠ "H" ∧ pred.type ≠ "L" then Except.ok none
  else
    let parts := jsSplit pred.t ' '
    let dateStr := parts.getD 0 "undefined"
    if dateStr = tomorrow then
      match parts.get? 1 with
      | none => Except.error "TypeError: timeStr is undefined"
      | some timeStr =>
        let hour := jsParseInt10 ((jsSplit timeStr ':').getD 0 "undefined")
        if jgeZ hour 4 ∧ jleZ hour 12 then
          let h := (jsSplit timeStr ':').getD 0 "undefined"
          let m := (jsSplit timeStr ':').getD 1 "undefined"
          let hourNum := jsParseInt10 h
          let ampm := if jgeZ hourNum 12 then "PM" else "AM"
          let hour12 : Option ℤ :=
            if jgtZ hourNum 12 then hourNum.map (fun x => x - 12)
            else if hourNum = some 0 then some 12
            else hourNum
          Except.ok (some (pred.type, zToString hour12 ++ ":" ++ m ++ " " ++ ampm))
        else Except.ok none
    else Except.ok none

/-- The for-of loop of getNoaaTideInfo: push the surviving entries in
source order, propagating the first thrown TypeError. -/
def tideLoop (tomorrow : String) : List TidePred → Except String (List (String × String))
  | [] => Except.ok []
  | p :: ps =>
    match noaaTideEntry tomorrow p with
    | Except.error e => Except.error e
    | Except.ok none => tideLoop tomorrow ps
    | Except.ok (some entry) => (tideLoop tomorrow ps).map (fun rest => entry :: rest)

/-- getNoaaTideInfo: collect the surviving morning tides in source order
and join their renderings, with the sentinel for an absent, empty or
fully filtered list; a TypeError thrown inside the loop propagates. -/
def getNoaaTideInfo (predictions : Option (List TidePred)) (tomorrow : String) :
    Except String String :=
  match predictions with
  | none => Except.ok "--"
  | some preds =>
    if preds.length = 0 then Except.ok "--"
    else
      match tideLoop tomorrow preds with
      | Except.error e => Except.error e
      | Except.ok morningTides =>
        if morningTides.length = 0 then Except.ok "--"
        else Except.ok (String.intercalate ", " (morningTides.map (fun e => e.1 ++ " " ++ e.2)))

/-- An entry does not throw: it is skipped before the date check, or its
date part differs from the target date, or its datetime string has a
time part. -/
def tideEntryOk (tomorrow : String) (p : TidePred) : Bool :=
  decide (p.type ≠ "H" ∧ p.type ≠ "L")
    || decide ((jsSplit p.t ' ').getD 0 "undefined" ≠ tomorrow)
    || ((jsSplit p.t ' ').get? 1).isSome

/-- Modelled from the spec: keep an event exactly when its type is High or
Low, its local date equals the target date, and its local hour is in the
closed interval 4 to 12. -/
def tideSpecKeep (tomorrow : String) (p : TidePred) : Bool :=
  let hour := jsParseInt10 ((jsSplit ((jsSplit p.t ' ').getD 1 "undefined") ':').getD 0 "undefined")
  (p.type = "H" || p.type = "L")
    && ((jsSplit p.t ' ').getD 0 "undefined" = tomorrow)
    && jgeZ hour 4 && jleZ hour 12

/-- The 12-hour clock time string of a tide event: hour converted to the
12-hour clock, a colon, the minute digits, a space, and the AM/PM
marker. -/
def tideRenderTime (p : TidePred) : String :=
  let timeStr := (jsSplit p.t ' ').getD 1 "undefined"
  let m := (jsSplit timeStr ':').getD 1 "undefined"
  let hourNum := jsParseInt10 ((jsSplit timeStr ':').getD 0 "undefined")
  let ampm := if jgeZ hourNum 12 then "PM" else "AM"
  let hour12 : Option ℤ :=
    if jgtZ hourNum 12 then hourNum.map (fun x => x - 12)
    else if hourNum = some 0 then some 12
    else hourNum
  zToString hour12 ++ ":" ++ m ++ " " ++ ampm

/-- Modelled from the spec (as amended): render one surviving event as
type, a space, the 12-hour time, a space, and the AM/PM marker. -/
def tideSpecRender (p : TidePred) : String :=
  p.type ++ " " ++ tideRenderTime p

/-- Modelled from the spec: filter to the surviving events in source
order, render each, join with a comma and space, with the sentinel when
none survive. -/
def noaaTideSpec (preds : List TidePred) (tomorrow : String) : String :=
  let survivors := preds.filter (tideSpecKeep tomorrow)
  if survivors = [] then "--"
  else String.intercalate ", " (survivors.map tideSpecRender)

/-- Presence condition under which the surf scorer cannot throw: a
present marine hourly block carries its time array. -/
def marinePresence : Option MarineData → Bool
  | none => true
  | some md =>
    match md.hourly with
    | none => true
    | some mh => mh.time.isSome

/-- Presence condition under which the wind block of the surf scorer
cannot throw: a present weather hourly block carries its time and wind
arrays. -/
def weatherWindPresence : Option WeatherData → Bool
  | none => true
  | some wd =>
    match wd.hourly with
    | none => true
    | some wh => wh.time.isSome && wh.wind_speed_10m.isSome && wh.wind_direction_10m.isSome

/-- Presence condition under which the photo and cycle scorers cannot
throw: the weather hourly block exists and carries every array they
dereference. -/
def weatherFull (w : WeatherData) : Bool :=
  match w.hourly with
  | none => false
  | some wh =>
    wh.time.isSome && wh.cloud_cover.isSome && wh.wind_speed_10m.isSome
      && wh.wind_direction_10m.isSome && wh.temperature_2m.isSome && wh.weather_code.isSome

/-- Whether the photo scorer finds a morning index in the weather series. -/
def photoMorningFound (tomorrow : String) (w : WeatherData) : Bool :=
  match w.hourly with
  | none => false
  | some wh =>
    match wh.time with
    | none => false
    | some ts => (getMorningHourIndex ts tomorrow).isSome

/-- Target date used by the concrete test inputs below. -/
def tomDate : String := "2024-02-28"

/-- A timestamp inside the morning window of the target date. -/
def morningTs : Timestamp := ⟨"2024-02-28", 7⟩

/-- Concrete marine payload of the spec scenario: wave height 3.2 ft,
wave period 9 s at the morning index, no swell data. -/
def marineC3 : MarineData :=
  ⟨some ⟨some [morningTs], some [3.2], none, some [9], none, none, none⟩⟩

/-- Concrete weather payload of the spec scenario: wind 6 mph from 280
degrees (offshore) at the morning index. -/
def weatherC3 : WeatherData :=
  ⟨some ⟨some [morningTs], none, none, none, some [6], some [280], none⟩⟩

/-- Concrete marine payload with raw wave height 1.5 ft and a present,
non-zero swell height of 5.5 ft at the morning index. -/
def marineC1 : MarineData :=
  ⟨some ⟨some [morningTs], some [1.5], none, none, some [5.5], none, none⟩⟩

/-- Concrete weather payload with the given cloud cover at the morning
index. -/
def weatherCloud (c : ℚ) : WeatherData :=
  ⟨some ⟨some [morningTs], none, none, some [c], none, none, none⟩⟩

/-- A weather payload without an hourly block. -/
def weatherNoHourly : WeatherData := ⟨none⟩

/-- A weather payload whose hourly block carries every array (all
empty), so that every dereference is defined. -/
def weatherAllArrays : WeatherData :=
  ⟨some ⟨some [], some [], some [], some [], some [], some [], some []⟩⟩

/-- Concrete NOAA predictions of the spec scenario: High 5:45 AM, Low
11:50 AM and High 2:00 PM on the target date. -/
def tidePredsC5 : List TidePred :=
  [⟨"2024-02-28 05:45", "4.1", "H"⟩,
   ⟨"2024-02-28 11:50", "0.4", "L"⟩,
   ⟨"2024-02-28 14:00", "4.0", "H"⟩]

/-- A concrete cycle result handed to getRecommendation in the closed
instances. -/
def cdDummy : CycleResult := ⟨5, none, some 6, some 200, some "SSW", some 60, some "longport",
  some "Go to Longport first, wind at your back coming home"⟩

/-- A concrete surf result handed to getRecommendation in the closed
instances. -/
def surfDataDummy : SurfResult :=
  ⟨7, some 3.2, "3.2ft @ 9s N", some 9, some 0, some 7, some 8, some 10⟩

/-- Bounds of the final clamp Math.min(10, Math.max(1, s)). -/
theorem clamp_bounds (x : ℚ) : 0 ≤ min 10 (max 1 x) ∧ min 10 (max 1 x) ≤ 10 :=
  ⟨le_min (by norm_num) (le_trans (by norm_num) (le_max_left 1 x)), min_le_left _ _⟩

/-- Inside the good-cloud band the rounded bonus is 1 or 2. -/
theorem photo_band_round (c : ℚ) (h1 : 20 ≤ c) (h2 : c ≤ 60) :
    jsRound ((40 - |c - 40|) / 20) = 1 ∨ jsRound ((40 - |c - 40|) / 20) = 2 := by
  have ht0 : 0 ≤ |c - 40| := abs_nonneg _
  have ht : |c - 40| ≤ 20 := abs_le.mpr ⟨by linarith, by linarith⟩
  have hx1 : (1 : ℚ) ≤ (40 - |c - 40|) / 20 := by
    rw [le_div_iff₀ (by norm_num : (0:ℚ) < 20)]
    linarith
  have hx2 : (40 - |c - 40|) / 20 ≤ 2 := by
    rw [div_le_iff₀ (by norm_num : (0:ℚ) < 20)]
    linarith
  have hlo : (1 : ℤ) ≤ jsRound ((40 - |c - 40|) / 20) := by
    have : (⌊(3/2 : ℚ)⌋ : ℤ) ≤ ⌊(40 - |c - 40|) / 20 + 1/2⌋ := Int.floor_le_floor (by linarith)
    simpa [jsRound, show ⌊(3/2 : ℚ)⌋ = 1 by norm_num] using this
  have hhi : jsRound ((40 - |c - 40|) / 20) ≤ 2 := by
    have : ⌊(40 - |c - 40|) / 20 + 1/2⌋ ≤ (⌊(5/2 : ℚ)⌋ : ℤ) := Int.floor_le_floor (by linarith)
    simpa [jsRound, show ⌊(5/2 : ℚ)⌋ = 2 by norm_num] using this
  omega

/-- The cloud-cover if-chain only ever produces the scores 2, 4, 5, 6, 9
and 10. -/
theorem photoVerdictScore_mem (x : JNum) :
    (photoVerdictScore x).1 = 2 ∨ (photoVerdictScore x).1 = 4 ∨ (photoVerdictScore x).1 = 5 ∨
    (photoVerdictScore x).1 = 6 ∨ (photoVerdictScore x).1 = 9 ∨ (photoVerdictScore x).1 = 10 := by
  rcases x with _ | c
  · exact Or.inl rfl
  · simp only [photoVerdictScore]
    split_ifs with h1 h2 h3 h4
    · rcases photo_band_round c h1.1 h1.2 with h | h <;> rw [h] <;> norm_num
    · norm_num
    · norm_num
    · norm_num
    · norm_num

/-- Claim C1. The spec says the height sub-score is computed from the
preferred swell height when it is present and non-zero; the code computes
the preferred swellHeight variable but never reads it, scoring the raw
wave height instead: with wave height 1.5 ft and swell height 5.5 ft the
height sub-score is 3 (the below-2-ft band of the raw height), not the 10
the 5.5 ft swell band would give. -/
theorem surf_height_ignores_swell :
    (calculateSurfScore tomDate (some marineC1) none).toOption.map
        (fun r => (r.heightScore, r.waveHeight)) = some (some 3, some 1.5) ∧
    ((3 : ℚ) ≠ 10) := by
  constructor
  · norm_num [calculateSurfScore, surfWindScore, getMorningHourIndex, findMorningFrom, tomDate,
      morningTs, marineC1, orD, morningStartHour, morningEndHour, Except.map, Except.toOption]
  · norm_num

/-- Claim C3 counterexample. For wave height 3.2 ft, period 9 s, wind 6
mph offshore, the scorer does not produce height sub-score 5 with final
score 7: the 3.2 ft height falls in the below-4-ft band, which scores 7. -/
theorem surf_scenario_counterexample :
    (calculateSurfScore tomDate (some marineC3) (some weatherC3)).toOption.map
        (fun r => (r.heightScore, r.score)) ≠ some (some 5, 7) := by
  norm_num [calculateSurfScore, surfWindScore, getMorningHourIndex, findMorningFrom, tomDate,
    morningTs, marineC3, weatherC3, orD, morningStartHour, morningEndHour, Except.map,
    Except.toOption, jsRound]

/-- Claim C3 as amended. For wave height 3.2 ft, period 9 s, wind 6 mph
offshore, the surf scorer produces height sub-score 7 (band 3 to 4 ft),
period sub-score 8, wind sub-score 10, and final score
round(7 by 0.4 plus 8 by 0.3 plus 10 by 0.3) = round(8.2) = 8. -/
theorem surf_scenario_amended :
    (calculateSurfScore tomDate (some marineC3) (some weatherC3)).toOption.map
        (fun r => (r.heightScore, r.periodScore, r.windScore, r.score)) =
      some (some 7, some 8, some 10, 8) := by
  norm_num [calculateSurfScore, surfWindScore, getMorningHourIndex, findMorningFrom, tomDate,
    morningTs, marineC3, weatherC3, orD, morningStartHour, morningEndHour, Except.map,
    Except.toOption, jsRound]

/-- Claim C4 counterexample. At the band edge c = 20 the photo score is
9, not the 8 the claim states: 8 + round((40 - 20) / 20) = 8 + 1 = 9. -/
theorem photo_edge_counterexample :
    (calculatePhotoScore tomDate (weatherCloud 20) none).toOption.map (fun r => r.score) =
      some 9 ∧ ((9 : ℚ) ≠ 8) := by
  constructor
  · norm_num [calculatePhotoScore, photoVerdictScore, getMorningHourIndex, findMorningFrom,
      tomDate, morningTs, weatherCloud, orD, morningStartHour, morningEndHour, Except.toOption,
      jsRound]
  · norm_num

/-- Claim C2 counterexample. The photo scorer is not total: on a weather
object without an hourly block it dereferences undefined and throws. -/
theorem photo_throws_without_hourly :
    calculatePhotoScore tomDate weatherNoHourly none =
      Except.error "TypeError: hourly is undefined" := rfl

/-- Claim C5 counterexample. The formatter renders a space between the
minutes and the AM/PM marker, so the scenario output is
"H 5:45 AM, L 11:50 AM" and not the claimed "H 5:45AM, L 11:50AM". -/
theorem tide_format_counterexample :
    getNoaaTideInfo (some tidePredsC5) tomDate = Except.ok "H 5:45 AM, L 11:50 AM" ∧
    "H 5:45 AM, L 11:50 AM" ≠ "H 5:45AM, L 11:50AM" := by
  constructor
  · rfl
  · decide

/-- The formatter is not total: a High or Low prediction whose datetime
string has no time part throws once its date part equals the target
date, exactly where the source dereferences the undefined timeStr. -/
theorem tide_throws_without_time_part :
    getNoaaTideInfo (some [⟨"2024-02-28", "4.1", "H"⟩]) tomDate =
      Except.error "TypeError: timeStr is undefined" := rfl

/-- Claim C9 counterexample. Not every input below -11.25 degrees yields
undefined: at -360 degrees the rounded value -16 has JS remainder 0
modulo 16, so the function returns the label N. -/
theorem cardinal_counterexample :
    degreesToCardinal (-360) = some "N" ∧ ((-360 : ℚ) < -(45/4)) := by
  constructor
  · norm_num [degreesToCardinal, jsRemInt, jsRound, directions]
  · norm_num

/-- Helper for stability goals: a non-strict comparison splits into the
strict case or the tie case. -/
theorem lt_or_eq_symm {x y : ℚ} (h : ¬ x < y) : y < x ∨ x = y := by
  rcases lt_or_eq_of_le (le_of_not_lt h) with h2 | h2
  · exact Or.inl h2
  · exact Or.inr h2.symm

/-- The wind block of the surf scorer succeeds whenever the wind
presence condition holds. -/
theorem surfWindScore_exists (tomorrow : String) (wd : Option WeatherData)
    (h : weatherWindPresence wd = true) : ∃ w, surfWindScore tomorrow wd = Except.ok w := by
  rcases wd with _ | ⟨_ | wh⟩
  · exact ⟨5, rfl⟩
  · exact ⟨5, rfl⟩
  · obtain ⟨ot, otemp, orh, occ, ows, owd, owc⟩ := wh
    simp only [weatherWindPresence, Bool.and_eq_true, Option.isSome_iff_exists] at h
    obtain ⟨⟨⟨times, ht⟩, ws, hws⟩, wdir, hwd⟩ := h
    subst ht hws hwd
    simp only [surfWindScore]
    rcases getMorningHourIndex times tomorrow with _ | i
    · exact ⟨5, rfl⟩
    · exact ⟨_, rfl⟩

/-- Totality of the surf scorer under the presence conditions. -/
theorem calculateSurfScore_total (tomorrow : String) (md : Option MarineData)
    (wd : Option WeatherData) (hm : marinePresence md = true)
    (hw : weatherWindPresence wd = true) :
    ∃ r, calculateSurfScore tomorrow md wd = Except.ok r ∧ 0 ≤ r.score ∧ r.score ≤ 10 := by
  rcases md with _ | ⟨_ | mh⟩
  · exact ⟨_, rfl, by norm_num, by norm_num⟩
  · exact ⟨_, rfl, by norm_num, by norm_num⟩
  · obtain ⟨ot, owh, owd, owp, osh, osd, osp⟩ := mh
    simp only [marinePresence, Option.isSome_iff_exists] at hm
    obtain ⟨times, ht⟩ := hm
    subst ht
    simp only [calculateSurfScore]
    rcases getMorningHourIndex times tomorrow with _ | i
    · exact ⟨_, rfl, by norm_num, by norm_num⟩
    · obtain ⟨w, hwsc⟩ := surfWindScore_exists tomorrow wd hw
      rw [hwsc]
      exact ⟨_, rfl, (clamp_bounds _).1, (clamp_bounds _).2⟩

/-- Totality of the photo scorer when the weather hourly block and its
arrays are present. -/
theorem calculatePhotoScore_total (tomorrow : String) (w : WeatherData) (sd : Option SunriseInfo)
    (hf : weatherFull w = true) :
    ∃ r, calculatePhotoScore tomorrow w sd = Except.ok r ∧ 0 ≤ r.score ∧ r.score ≤ 10 := by
  rcases w with ⟨_ | wh⟩
  · simp [weatherFull] at hf
  · obtain ⟨ot, otemp, orh, occ, ows, owd, owc⟩ := wh
    simp only [weatherFull, Bool.and_eq_true, Option.isSome_iff_exists] at hf
    obtain ⟨⟨⟨⟨⟨⟨times, ht⟩, cc, hcc⟩, ws, hws⟩, wdir, hwd⟩, te, hte⟩, wc, hwc⟩ := hf
    subst ht hcc
    simp only [calculatePhotoScore]
    rcases getMorningHourIndex times tomorrow with _ | i
    · exact ⟨_, rfl, by norm_num, by norm_num⟩
    · refine ⟨_, rfl, ?_, ?_⟩ <;>
        rcases photoVerdictScore_mem (cc.get? i) with h|h|h|h|h|h <;> simp only [h] <;> norm_num

/-- Totality of the cycle scorer when the weather hourly block and its
arrays are present. -/
theorem calculateCycleScore_total (tomorrow : String) (w : WeatherData)
    (hf : weatherFull w = true) :
    ∃ r, calculateCycleScore tomorrow w = Except.ok r ∧ 0 ≤ r.score ∧ r.score ≤ 10 := by
  rcases w with ⟨_ | wh⟩
  · simp [weatherFull] at hf
  · obtain ⟨ot, otemp, orh, occ, ows, owd, owc⟩ := wh
    simp only [weatherFull, Bool.and_eq_true, Option.isSome_iff_exists] at hf
    obtain ⟨⟨⟨⟨⟨⟨times, ht⟩, cc, hcc⟩, ws, hws⟩, wdir, hwd⟩, te, hte⟩, wc, hwc⟩ := hf
    subst ht hws hwd hte hwc
    simp only [calculateCycleScore]
    rcases getMorningHourIndex times tomorrow with _ | i
    · exact ⟨_, rfl, by norm_num, by norm_num⟩
    · exact ⟨_, rfl, (clamp_bounds _).1, (clamp_bounds _).2⟩

/-- Claim C2 as amended. The scorers are total and deliver a score in 0
to 10 under presence side conditions on the arrays they dereference: the
surf scorer tolerates an absent marine payload, absent hourly blocks and
an absent weather payload, but a present marine hourly block needs its
time array and a present weather hourly block its time and wind arrays;
the photo and cycle scorers need the weather hourly block together with
the time array and the data arrays they read, and throw a TypeError
otherwise. -/
theorem scorers_total (tomorrow : String) (md : Option MarineData) (wd : Option WeatherData)
    (w : WeatherData) (sd : Option SunriseInfo) (hm : marinePresence md = true)
    (hw : weatherWindPresence wd = true) (hf : weatherFull w = true) :
    (∃ r, calculateSurfScore tomorrow md wd = Except.ok r ∧ 0 ≤ r.score ∧ r.score ≤ 10) ∧
    (∃ r, calculatePhotoScore tomorrow w sd = Except.ok r ∧ 0 ≤ r.score ∧ r.score ≤ 10) ∧
    (∃ r, calculateCycleScore tomorrow w = Except.ok r ∧ 0 ≤ r.score ∧ r.score ≤ 10) :=
  ⟨calculateSurfScore_total tomorrow md wd hm hw,
   calculatePhotoScore_total tomorrow w sd hf,
   calculateCycleScore_total tomorrow w hf⟩

/-- Witness for claim C2 at concrete inputs: an absent marine payload, an
absent weather payload for the wind block, and a weather payload whose
hourly block carries every array. -/
theorem scorers_total_witness :
    (∃ r, calculateSurfScore tomDate none none = Except.ok r ∧ 0 ≤ r.score ∧ r.score ≤ 10) ∧
    (∃ r, calculatePhotoScore tomDate weatherAllArrays none = Except.ok r ∧
      0 ≤ r.score ∧ r.score ≤ 10) ∧
    (∃ r, calculateCycleScore tomDate weatherAllArrays = Except.ok r ∧
      0 ≤ r.score ∧ r.score ≤ 10) :=
  scorers_total tomDate none none weatherAllArrays none rfl rfl rfl

/-- Claim C4 as amended. Within the good-cloud band the photo score is
8 + round((40 - abs(c - 40)) / 20); it stays between 9 and 10, reaches 10
at c = 40, and equals 9 (not 8) at the band edges c = 20 and c = 60. -/
theorem photo_band_formula (tomorrow : String) (w : WeatherData) (sd : Option SunriseInfo)
    (wh : WeatherHourly) (ts : List Timestamp) (cc : List ℚ) (i : ℕ) (c : ℚ)
    (hw : w.hourly = some wh) (ht : wh.time = some ts) (hcc : wh.cloud_cover = some cc)
    (hidx : getMorningHourIndex ts tomorrow = some i) (hc : cc.get? i = some c)
    (h1 : 20 ≤ c) (h2 : c ≤ 60) :
    ∃ r, calculatePhotoScore tomorrow w sd = Except.ok r ∧
      r.score = 8 + (jsRound ((40 - |c - 40|) / 20) : ℚ) ∧
      9 ≤ r.score ∧ r.score ≤ 10 ∧
      (c = 40 → r.score = 10) ∧ ((c = 20 ∨ c = 60) → r.score = 9) := by
  simp only [calculatePhotoScore, hw, ht, hidx, hcc, hc, photoVerdictScore]
  rw [if_pos ⟨h1, h2⟩]
  refine ⟨_, rfl, rfl, ?_, ?_, ?_, ?_⟩
  · rcases photo_band_round c h1 h2 with h | h <;> simp only [h] <;> norm_num
  · rcases photo_band_round c h1 h2 with h | h <;> simp only [h] <;> norm_num
  · intro h40
    subst h40
    have hr : jsRound ((40 - |(40:ℚ) - 40|) / 20) = 2 := by norm_num [jsRound]
    simp only [hr]
    norm_num
  · intro hedge
    rcases hedge with he | he <;> subst he
    · have hr : jsRound ((40 - |(20:ℚ) - 40|) / 20) = 1 := by norm_num [jsRound]
      simp only [hr]
      norm_num
    · have hr : jsRound ((40 - |(60:ℚ) - 40|) / 20) = 1 := by norm_num [jsRound]
      simp only [hr]
      norm_num

/-- Witness for claim C4 at the concrete cloud cover 40. -/
theorem photo_band_formula_witness :
    ∃ r, calculatePhotoScore tomDate (weatherCloud 40) none = Except.ok r ∧
      r.score = 8 + (jsRound ((40 - |(40:ℚ) - 40|) / 20) : ℚ) ∧
      9 ≤ r.score ∧ r.score ≤ 10 ∧
      ((40:ℚ) = 40 → r.score = 10) ∧ (((40:ℚ) = 20 ∨ (40:ℚ) = 60) → r.score = 9) :=
  photo_band_formula tomDate (weatherCloud 40) none _ [morningTs] [40] 0 40 rfl rfl rfl
    (by norm_num [getMorningHourIndex, findMorningFrom, tomDate, morningTs, morningStartHour,
      morningEndHour]) rfl (by norm_num) (by norm_num)

/-- Claim C8. Whenever the photo scorer returns a result, the score is
one of 2, 4, 5, 6, 9 and 10 when the morning index is found (in
particular 8 never occurs), and 0 when it is not found. -/
theorem photo_score_values (tomorrow : String) (w : WeatherData) (sd : Option SunriseInfo)
    (r : PhotoResult) (h : (calculatePhotoScore tomorrow w sd).toOption = some r) :
    (photoMorningFound tomorrow w = true →
      (r.score = 2 ∨ r.score = 4 ∨ r.score = 5 ∨ r.score = 6 ∨ r.score = 9 ∨ r.score = 10)) ∧
    (photoMorningFound tomorrow w = false → r.score = 0) := by
  rcases w with ⟨_ | wh⟩
  · simp [calculatePhotoScore, Except.toOption] at h
  · obtain ⟨ot, otemp, orh, occ, ows, owd, owc⟩ := wh
    rcases ot with _ | times
    · simp [calculatePhotoScore, Except.toOption] at h
    · simp only [calculatePhotoScore, photoMorningFound] at h ⊢
      rcases hidx : getMorningHourIndex times tomorrow with _ | i
      · rw [hidx] at h
        simp only [Except.toOption, Option.some.injEq] at h
        subst h
        exact ⟨fun hfound => by simp at hfound, fun _ => rfl⟩
      · rw [hidx] at h
        rcases occ with _ | cc
        · simp [Except.toOption] at h
        · simp only [Except.toOption, Option.some.injEq] at h
          subst h
          refine ⟨fun _ => ?_, fun hfalse => by simp [hidx] at hfalse⟩
          simpa using photoVerdictScore_mem (cc.get? i)

/-- Witness for claim C8 at a concrete weather payload whose cloud cover
at the found index is 95. -/
theorem photo_score_values_witness :
    (photoMorningFound tomDate (weatherCloud 95) = true →
      ((⟨2, none, "Overcast - unlikely to see color", some 95, some 50⟩ : PhotoResult).score = 2 ∨
       (⟨2, none, "Overcast - unlikely to see color", some 95, some 50⟩ : PhotoResult).score = 4 ∨
       (⟨2, none, "Overcast - unlikely to see color", some 95, some 50⟩ : PhotoResult).score = 5 ∨
       (⟨2, none, "Overcast - unlikely to see color", some 95, some 50⟩ : PhotoResult).score = 6 ∨
       (⟨2, none, "Overcast - unlikely to see color", some 95, some 50⟩ : PhotoResult).score = 9 ∨
       (⟨2, none, "Overcast - unlikely to see color", some 95, some 50⟩ : PhotoResult).score = 10)) ∧
    (photoMorningFound tomDate (weatherCloud 95) = false →
      (⟨2, none, "Overcast - unlikely to see color", some 95, some 50⟩ : PhotoResult).score = 0) :=
  photo_score_values tomDate (weatherCloud 95) none
    ⟨2, none, "Overcast - unlikely to see color", some 95, some 50⟩
    (by norm_num [calculatePhotoScore, photoVerdictScore, getMorningHourIndex, findMorningFrom,
      tomDate, morningTs, weatherCloud, orD, morningStartHour, morningEndHour, Except.toOption])

/-- Heads that the three-element stable sort can produce. -/
theorem ranked_head_cases (s p c : ℚ) :
    (rankedActivities s p c).headD ⟨"", 0, ""⟩ = ⟨"surf", s, "GO SURF"⟩ ∨
    (rankedActivities s p c).headD ⟨"", 0, ""⟩ = ⟨"photo", p, "SUNRISE PHOTOS"⟩ ∨
    (rankedActivities s p c).headD ⟨"", 0, ""⟩ = ⟨"cycle", c, "GO CYCLING"⟩ := by
  simp only [rankedActivities, jsSortDesc, List.foldl, insertDesc]
  split_ifs <;> simp only [insertDesc] <;> split_ifs <;> simp

/-- Claim C6. When all three scores are below 4 the arbiter returns the
fixed sleep-in recommendation, whatever activity nominally won. -/
theorem sleep_in_override (sc : Scores) (sd : Option SurfResult) (cd : CycleResult)
    (hs : sc.surf < 4) (hp : sc.photo < 4) (hc : sc.cycle < 4) :
    getRecommendation sc sd cd = ⟨"SLEEP IN", "Nothing looks great tomorrow", "&#128564;"⟩ := by
  obtain ⟨s, p, c⟩ := sc
  have hb := ranked_head_cases s p c
  simp only [getRecommendation]
  rcases hb with h | h | h <;> rw [h]
  · rw [if_pos (show (Activity.mk "surf" s "GO SURF").score < 4 from hs)]
  · rw [if_pos (show (Activity.mk "photo" p "SUNRISE PHOTOS").score < 4 from hp)]
  · rw [if_pos (show (Activity.mk "cycle" c "GO CYCLING").score < 4 from hc)]

/-- Witness for claim C6 at the concrete scores 3, 2, 1. -/
theorem sleep_in_override_witness :
    getRecommendation ⟨3, 2, 1⟩ none cdDummy =
      ⟨"SLEEP IN", "Nothing looks great tomorrow", "&#128564;"⟩ :=
  sleep_in_override ⟨3, 2, 1⟩ none cdDummy (by norm_num) (by norm_num) (by norm_num)

/-- The ranked list is a permutation of the input activities. -/
theorem ranking_perm (s p c : ℚ) :
    (rankedActivities s p c).Perm
      [⟨"surf", s, "GO SURF"⟩, ⟨"photo", p, "SUNRISE PHOTOS"⟩, ⟨"cycle", c, "GO CYCLING"⟩] := by
  simp only [rankedActivities, jsSortDesc, List.foldl, insertDesc]
  split_ifs with h1 <;> simp only [insertDesc] <;> split_ifs with h2 h3
  · exact ((List.Perm.swap _ _ _).trans ((List.Perm.swap _ _ _).cons _)).trans
      (List.Perm.swap _ _ _)
  · exact ((List.Perm.swap _ _ _).cons _).trans (List.Perm.swap _ _ _)
  · exact List.Perm.swap _ _ _
  · exact (List.Perm.swap _ _ _).trans ((List.Perm.swap _ _ _).cons _)
  · exact (List.Perm.swap _ _ _).cons _
  · exact List.Perm.refl _

/-- The ranked list is descending, with ties resolved by input order. -/
theorem ranking_pairwise (s p c : ℚ) :
    List.Pairwise
      (fun a b => b.score < a.score ∨ (a.score = b.score ∧ inputPos a.name < inputPos b.name))
      (rankedActivities s p c) := by
  simp only [rankedActivities, jsSortDesc, List.foldl, insertDesc]
  split_ifs with h1 <;> simp only [insertDesc] <;> split_ifs with h2 h3 <;>
    simp [List.pairwise_cons, inputPos]
  · exact ⟨⟨h2, by linarith⟩, h1⟩
  · exact ⟨⟨lt_or_eq_symm h2, h1⟩, h3⟩
  · exact ⟨⟨h1, lt_or_eq_symm h2⟩, lt_or_eq_symm h3⟩
  · exact ⟨⟨h2, by linarith⟩, lt_or_eq_symm h1⟩
  · exact ⟨⟨lt_or_eq_symm h2, lt_or_eq_symm h1⟩, h3⟩
  · exact ⟨⟨lt_or_eq_symm h1, lt_or_eq_symm h2⟩, lt_or_eq_symm h3⟩

/-- Claim C7. The arbiter ranks the three activities by score descending
with ties broken by the input order surf, photo, cycle, and for the
scores 7, 7, 5 the winner is surf. -/
theorem arbiter_ranking :
    (∀ s p c : ℚ,
      (rankedActivities s p c).Perm
        [⟨"surf", s, "GO SURF"⟩, ⟨"photo", p, "SUNRISE PHOTOS"⟩, ⟨"cycle", c, "GO CYCLING"⟩] ∧
      List.Pairwise
        (fun a b => b.score < a.score ∨ (a.score = b.score ∧ inputPos a.name < inputPos b.name))
        (rankedActivities s p c)) ∧
    (getRecommendation ⟨7, 7, 5⟩ (some surfDataDummy) cdDummy).activity = "GO SURF" :=
  ⟨fun s p c => ⟨ranking_perm s p c, ranking_pairwise s p c⟩, by
    norm_num [getRecommendation, rankedActivities, jsSortDesc, insertDesc, surfDataDummy,
      cdDummy, strTruthy, iconsLookup]⟩

/-- Claim C10. The output activity label is one of the four fixed
strings, the icon is the fixed function of the label, and a photo win
carries the fixed photo detail string. -/
theorem rec_invariants (sc : Scores) (sd : Option SurfResult) (cd : CycleResult) :
    ((getRecommendation sc sd cd).activity = "GO SURF" ∨
     (getRecommendation sc sd cd).activity = "SUNRISE PHOTOS" ∨
     (getRecommendation sc sd cd).activity = "GO CYCLING" ∨
     (getRecommendation sc sd cd).activity = "SLEEP IN") ∧
    (getRecommendation sc sd cd).icon = iconForLabel (getRecommendation sc sd cd).activity ∧
    ((getRecommendation sc sd cd).activity = "SUNRISE PHOTOS" →
      (getRecommendation sc sd cd).detail = "Get up early and find your spot") := by
  obtain ⟨s, p, c⟩ := sc
  rcases ranked_head_cases s p c with h | h | h <;>
    simp only [getRecommendation, h] <;>
    split_ifs <;>
    simp_all [iconForLabel, iconsLookup]

/-- Witness for claim C10 at concrete inputs where photo wins. -/
theorem rec_invariants_witness :
    ((getRecommendation ⟨2, 9, 5⟩ none cdDummy).activity = "GO SURF" ∨
     (getRecommendation ⟨2, 9, 5⟩ none cdDummy).activity = "SUNRISE PHOTOS" ∨
     (getRecommendation ⟨2, 9, 5⟩ none cdDummy).activity = "GO CYCLING" ∨
     (getRecommendation ⟨2, 9, 5⟩ none cdDummy).activity = "SLEEP IN") ∧
    (getRecommendation ⟨2, 9, 5⟩ none cdDummy).icon =
      iconForLabel (getRecommendation ⟨2, 9, 5⟩ none cdDummy).activity ∧
    ((getRecommendation ⟨2, 9, 5⟩ none cdDummy).activity = "SUNRISE PHOTOS" →
      (getRecommendation ⟨2, 9, 5⟩ none cdDummy).detail = "Get up early and find your spot") :=
  rec_invariants ⟨2, 9, 5⟩ none cdDummy

/-- Pointwise agreement of the formatter loop body with the spec-side
keep-and-render pair, on entries that do not throw. -/
theorem noaaTideEntry_eq (tom : String) (p : TidePred) (hok : tideEntryOk tom p = true) :
    noaaTideEntry tom p =
      Except.ok (if tideSpecKeep tom p then some (p.type, tideRenderTime p) else none) := by
  by_cases hskip : p.type ≠ "H" ∧ p.type ≠ "L"
  · have h1 : (p.type = "H" || p.type = "L") = false := by
      simp [hskip.1, hskip.2]
    simp [noaaTideEntry, tideSpecKeep, hskip, h1]
  · by_cases hdate : (jsSplit p.t ' ')[0]?.getD "undefined" = tom
    · have hsome : ((jsSplit p.t ' ').get? 1).isSome = true := by
        simp only [tideEntryOk, Bool.or_eq_true, decide_eq_true_eq] at hok
        rcases hok with (h | h) | h
        · exact absurd h hskip
        · exact absurd hdate (by simpa [List.getD] using h)
        · exact h
      obtain ⟨timeStr, hts⟩ := Option.isSome_iff_exists.mp hsome
      have hts2 : (jsSplit p.t ' ')[1]? = some timeStr := by
        rw [← List.get?_eq_getElem?]
        exact hts
      have hts' : (jsSplit p.t ' ')[1]?.getD "undefined" = timeStr := by
        rw [hts2]
        rfl
      have hor : p.type = "H" ∨ p.type = "L" := by
        rcases not_and_or.mp hskip with h | h
        · exact Or.inl (not_not.mp h)
        · exact Or.inr (not_not.mp h)
      by_cases hge : jgeZ (jsParseInt10 ((jsSplit timeStr ':')[0]?.getD "undefined")) 4 = true <;>
        by_cases hle : jleZ (jsParseInt10 ((jsSplit timeStr ':')[0]?.getD "undefined")) 12 = true <;>
        simp [noaaTideEntry, tideSpecKeep, tideRenderTime, hskip, hdate, hts2, hts', hor,
          hge, hle]
    · simp [noaaTideEntry, tideSpecKeep, hdate]

/-- The formatter loop collects exactly the kept events in order, on
lists whose entries do not throw. -/
theorem tideLoop_eq (tom : String) (l : List TidePred)
    (hok : ∀ p ∈ l, tideEntryOk tom p = true) :
    tideLoop tom l =
      Except.ok ((l.filter (tideSpecKeep tom)).map (fun p => (p.type, tideRenderTime p))) := by
  induction l with
  | nil => rfl
  | cons a l ih =>
    simp only [tideLoop, noaaTideEntry_eq tom a (hok a (List.mem_cons_self a l)),
      List.filter_cons]
    by_cases h : tideSpecKeep tom a
    · simp [h, ih (fun p hp => hok p (List.mem_cons_of_mem a hp)), Except.map]
    · simp [h, ih (fun p hp => hok p (List.mem_cons_of_mem a hp)), Except.map]

/-- Claim C5 as amended. On prediction lists free of the throwing case
(a High or Low event whose date-only datetime string equals the target
date), the tide formatter keeps exactly the High and Low events on the
target date with hour between 4 and 12, preserves source order, renders
each as the type, a space, and the 12-hour time with a space before the
AM/PM marker, joins with a comma and a space and falls back to the
sentinel; for the scenario events the output is "H 5:45 AM, L 11:50 AM". -/
theorem tide_spec_refinement :
    (∀ (preds : List TidePred) (tom : String),
        (∀ p ∈ preds, tideEntryOk tom p = true) →
        getNoaaTideInfo (some preds) tom = Except.ok (noaaTideSpec preds tom)) ∧
    getNoaaTideInfo (some tidePredsC5) tomDate = Except.ok "H 5:45 AM, L 11:50 AM" := by
  constructor
  · intro preds tom hok
    simp only [getNoaaTideInfo, noaaTideSpec, tideLoop_eq tom preds hok]
    by_cases hnil : preds.length = 0
    · have hp : preds = [] := List.length_eq_zero.mp hnil
      subst hp
      simp
    · rw [if_neg hnil]
      by_cases hsur : preds.filter (tideSpecKeep tom) = []
      · simp [hsur]
      · rw [if_neg (by simp [hsur]), if_neg hsur, List.map_map]
        rfl
  · rfl

/-- Witness for claim C5 at the concrete scenario predictions, which are
free of the throwing case. -/
theorem tide_spec_refinement_witness :
    getNoaaTideInfo (some tidePredsC5) tomDate =
      Except.ok (noaaTideSpec tidePredsC5 tomDate) :=
  tide_spec_refinement.1 tidePredsC5 tomDate (by decide)

/-- Claim C9 as amended. Above -11.25 degrees the function returns one of
the sixteen labels; it is periodic by 360 on nonnegative inputs; below
-11.25 degrees the rounded index is negative, and the function returns
undefined exactly when that rounded value is not a multiple of 16 (so -90
yields undefined while multiples of -360 come back around to N). -/
theorem cardinal_amended :
    (∀ d : ℚ, -(45/4) < d → ∃ lbl, degreesToCardinal d = some lbl ∧ lbl ∈ directions) ∧
    (∀ d : ℚ, 0 ≤ d → degreesToCardinal (d + 360) = degreesToCardinal d) ∧
    (∀ d : ℚ, d < -(45/4) → jsRound (d / (45/2)) < 0 ∧
      (degreesToCardinal d = none ↔ ¬ (16 ∣ jsRound (d / (45/2))))) ∧
    degreesToCardinal (-90) = none := by
  refine ⟨?_, ?_, ?_, ?_⟩
  · intro d hd
    have hr : 0 ≤ jsRound (d / (45/2)) := by
      rw [jsRound]
      refine Int.floor_nonneg.mpr ?_
      have : -(1/2 : ℚ) < d / (45/2) := by
        rw [lt_div_iff₀ (by norm_num : (0:ℚ) < 45/2)]
        linarith
      linarith
    have h0 : 0 ≤ jsRound (d / (45/2)) % 16 := Int.emod_nonneg _ (by norm_num)
    have h16 : jsRound (d / (45/2)) % 16 < 16 := Int.emod_lt_of_pos _ (by norm_num)
    have hlen : (jsRound (d / (45/2)) % 16).toNat < directions.length := by
      simp only [directions, List.length]
      omega
    refine ⟨directions.get ⟨(jsRound (d / (45/2)) % 16).toNat, hlen⟩, ?_, List.get_mem _ _ _⟩
    simp only [degreesToCardinal, jsRemInt, if_pos hr]
    rw [if_neg (not_lt.mpr h0)]
    exact List.get?_eq_get hlen
  · intro d hd
    have hplus : (d + 360) / (45/2) = d / (45/2) + 16 := by
      rw [add_div]
      norm_num
    have h16 : jsRound ((d + 360) / (45/2)) = jsRound (d / (45/2)) + 16 := by
      rw [jsRound, jsRound, hplus,
        show d / (45/2) + 16 + 1/2 = d / (45/2) + 1/2 + ((16:ℤ) : ℚ) by push_cast; ring,
        Int.floor_add_int]
    have hr : 0 ≤ jsRound (d / (45/2)) := by
      rw [jsRound]
      refine Int.floor_nonneg.mpr ?_
      have : 0 ≤ d / (45/2) := by positivity
      linarith
    have hmod : jsRemInt (jsRound (d / (45/2)) + 16) 16 = jsRemInt (jsRound (d / (45/2))) 16 := by
      rw [jsRemInt, jsRemInt, if_pos (by omega : (0:ℤ) ≤ jsRound (d / (45/2)) + 16), if_pos hr]
      omega
    simp only [degreesToCardinal, h16, hmod]
  · intro d hd
    have hr : jsRound (d / (45/2)) < 0 := by
      rw [jsRound]
      refine Int.floor_lt.mpr ?_
      have : d / (45/2) < -(1/2) := by
        rw [div_lt_iff₀ (by norm_num : (0:ℚ) < 45/2)]
        linarith
      push_cast
      linarith
    refine ⟨hr, ?_⟩
    have hneg : ¬ (0 ≤ jsRound (d / (45/2))) := not_le.mpr hr
    by_cases hdvd : (16:ℤ) ∣ jsRound (d / (45/2))
    · have hm : (-jsRound (d / (45/2))) % 16 = 0 := by omega
      simp only [degreesToCardinal, jsRemInt, if_neg hneg, hm]
      simp [directions, hdvd]
    · have hm : 0 < (-jsRound (d / (45/2))) % 16 := by omega
      simp only [degreesToCardinal, jsRemInt, if_neg hneg]
      rw [if_pos (by omega : -(-jsRound (d / (45/2)) % 16) < 0)]
      simp [hdvd]
  · norm_num [degreesToCardinal, jsRound, jsRemInt, directions]

/-- Witness for claim C9 at the concrete degrees 359, 0 and -90. -/
theorem cardinal_amended_witness :
    (∃ lbl, degreesToCardinal 359 = some lbl ∧ lbl ∈ directions) ∧
    degreesToCardinal ((0:ℚ) + 360) = degreesToCardinal 0 ∧
    (jsRound ((-90 : ℚ) / (45/2)) < 0 ∧
      (degreesToCardinal (-90) = none ↔ ¬ (16 ∣ jsRound ((-90 : ℚ) / (45/2))))) :=
  ⟨cardinal_amended.1 359 (by norm_num), cardinal_amended.2.1 0 (by norm_num),
   cardinal_amended.2.2.1 (-90) (by norm_num)⟩

end DawnPatrol
